import Mathlib

/-!
Verification of the inference notebooks of the wildfire-forecasting
repository.  The repository consists of two Jupyter notebooks
(a 4-days-in / 10-days-out notebook and a 2-days-in / 1-day-out
notebook) that load a pretrained checkpoint, run forward passes,
optionally invert a Box-Cox transform, mask invalid regions with NaN
and display accuracy / MAE figures.

We shallowly embed the notebook cells: tensor cell values are modelled
by `FVal` (NaN or an exact rational), tensors by functions from an
abstract position type or by lists, the sequential statements of a
notebook cell by explicit state passing, and the whole notebook by a
list of events in source order.  External library functions that the
notebooks merely call (the model forward pass, `scipy.special.inv_boxcox`)
are universally quantified parameters.
-/

set_option autoImplicit false

namespace Wildfire

/-- A floating-point tensor cell value: NaN or a finite number, the
numeric part modelled exactly over the rationals.  Only the NaN
behaviour of the notebooks is semantically relevant to the claims. -/
inductive FVal where
  | nan : FVal
  | num : ℚ → FVal
deriving DecidableEq, Repr

/-- `torch.isnan` on one cell value. -/
def FVal.isnan : FVal → Bool
  | .nan => true
  | .num _ => false

/-- Subtraction of cell values; NaN propagates, as in IEEE arithmetic. -/
def FVal.sub : FVal → FVal → FVal
  | .num a, .num b => .num (a - b)
  | _, _ => .nan

/-- Absolute value of a cell value; NaN propagates. -/
def FVal.fabs : FVal → FVal
  | .num a => .num |a|
  | .nan => .nan

/-- Strict less-than on cell values; any comparison with NaN is false,
as in IEEE arithmetic. -/
def FVal.flt : FVal → FVal → Bool
  | .num a, .num b => decide (a < b)
  | _, _ => false

/-- The masking assignment of the notebooks,
`y_hat[torch.isnan(y)] = torch.tensor(float(nan))`: every position at
which `y` is NaN is overwritten with NaN, every other position keeps
the value of `y_hat`. -/
def maskAssign {Pos : Type} (y y_hat : Pos → FVal) : Pos → FVal :=
  fun p => if (y p).isnan then FVal.nan else y_hat p

/-- The mutable variables of the manual-inference cells: the input
tensor `x`, the ground-truth tensor `y` and the prediction `y_hat`. -/
structure Env (Pos : Type) where
  x : Pos → FVal
  y : Pos → FVal
  y_hat : Pos → FVal

/-- The manual-inference cell of both notebooks (without Box-Cox):
`x = model.data[0][0].unsqueeze(0)`, `y = model.data[0][1].unsqueeze(0)`,
`y_hat = model(x).detach()`, then the masking assignment.  `data0` is
the pair returned by `model.data[0]` and `model` the forward pass. -/
def manualInferenceCell {Pos : Type} (data0 : (Pos → FVal) × (Pos → FVal))
    (model : (Pos → FVal) → Pos → FVal) (e : Env Pos) : Env Pos :=
  let e1 := { e with x := data0.1 }
  let e2 := { e1 with y := data0.2 }
  let e3 := { e2 with y_hat := model e2.x }
  { e3 with y_hat := maskAssign e3.y e3.y_hat }

/-- The Box-Cox inference cell of both notebooks: as in
`manualInferenceCell`, but with
`y_hat = torch.from_numpy(inv_boxcox(y_hat.cpu().numpy(), model.hparams.boxcox))`
interposed between the forward pass and the masking assignment.
`inv_boxcox` is the external SciPy routine, kept abstract, and `lam`
is the configured `hparams.boxcox` value. -/
def boxcoxInferenceCell {Pos : Type} (data0 : (Pos → FVal) × (Pos → FVal))
    (model : (Pos → FVal) → Pos → FVal) (inv_boxcox : FVal → ℚ → FVal)
    (lam : ℚ) (e : Env Pos) : Env Pos :=
  let e1 := { e with x := data0.1 }
  let e2 := { e1 with y := data0.2 }
  let e3 := { e2 with y_hat := model e2.x }
  let e4 := { e3 with y_hat := fun p => inv_boxcox (e3.y_hat p) lam }
  { e4 with y_hat := maskAssign e4.y e4.y_hat }

/-- Concrete two-cell position sample used by witnesses. -/
def wData0 : (Fin 2 → FVal) × (Fin 2 → FVal) :=
  (fun _ => FVal.num 1, fun i => if i = 0 then FVal.nan else FVal.num 3)

/-- Concrete forward pass used by witnesses. -/
def wModel : (Fin 2 → FVal) → Fin 2 → FVal := fun _ _ => FVal.num 7

/-- Concrete inverse Box-Cox stand-in used by witnesses. -/
def wInv : FVal → ℚ → FVal := fun v l => v.sub (FVal.num l)

/-- Concrete initial environment used by witnesses. -/
def wEnv : Env (Fin 2) :=
  { x := fun _ => FVal.num 0, y := fun _ => FVal.num 0, y_hat := fun _ => FVal.num 0 }

/-- C1: after the masking step of manual inference, every position where
the ground truth `y` is NaN holds NaN in `y_hat`, and every position
where `y` is not NaN holds exactly the forward-pass output — with the
inverse Box-Cox transform applied first in the Box-Cox cell; masking
changes no other entry. -/
theorem masking_frame_effect {Pos : Type}
    (data0 : (Pos → FVal) × (Pos → FVal))
    (model : (Pos → FVal) → Pos → FVal) (inv_boxcox : FVal → ℚ → FVal)
    (lam : ℚ) (e : Env Pos) (p : Pos) :
    ((data0.2 p).isnan = true →
      (manualInferenceCell data0 model e).y_hat p = FVal.nan ∧
      (boxcoxInferenceCell data0 model inv_boxcox lam e).y_hat p = FVal.nan) ∧
    ((data0.2 p).isnan = false →
      (manualInferenceCell data0 model e).y_hat p = model data0.1 p ∧
      (boxcoxInferenceCell data0 model inv_boxcox lam e).y_hat p
        = inv_boxcox (model data0.1 p) lam) := by
  constructor
  · intro h
    constructor <;>
      simp [manualInferenceCell, boxcoxInferenceCell, maskAssign, h]
  · intro h
    constructor <;>
      simp [manualInferenceCell, boxcoxInferenceCell, maskAssign, h]

/-- Witness for C1 at a concrete sample: position 0 has NaN ground
truth and is masked to NaN; position 1 has numeric ground truth and
keeps the raw (resp. inverse-Box-Cox-transformed) forward output. -/
theorem masking_frame_effect_witness :
    (manualInferenceCell wData0 wModel wEnv).y_hat 0 = FVal.nan ∧
    (boxcoxInferenceCell wData0 wModel wInv (1/10) wEnv).y_hat 1
      = wInv (wModel wData0.1 1) (1/10) := by
  constructor
  · exact ((masking_frame_effect wData0 wModel wInv (1/10) wEnv 0).1 (by decide)).1
  · exact ((masking_frame_effect wData0 wModel wInv (1/10) wEnv 1).2 (by decide)).2

/-- C3: the inverse Box-Cox transform is optional and ordered before
masking: the Box-Cox cell masks exactly the tensor obtained by applying
`inv_boxcox` with the configured lambda to the raw forward-pass output,
and the plain cell masks the raw forward-pass output directly. -/
theorem boxcox_before_masking {Pos : Type}
    (data0 : (Pos → FVal) × (Pos → FVal))
    (model : (Pos → FVal) → Pos → FVal) (inv_boxcox : FVal → ℚ → FVal)
    (lam : ℚ) (e : Env Pos) :
    (boxcoxInferenceCell data0 model inv_boxcox lam e).y_hat
      = maskAssign data0.2 (fun p => inv_boxcox (model data0.1 p) lam) ∧
    (manualInferenceCell data0 model e).y_hat
      = maskAssign data0.2 (model data0.1) := by
  constructor <;> rfl

/-- C10: the masking assignment is idempotent. -/
theorem maskAssign_idempotent {Pos : Type} (y y_hat : Pos → FVal) :
    maskAssign y (maskAssign y y_hat) = maskAssign y y_hat := by
  funext p
  unfold maskAssign
  by_cases h : (y p).isnan <;> simp [h]

/-! ### Event traces of the two notebooks

Each notebook is a fixed sequence of cells executed top to bottom; we
record the side-effecting steps of each cell, in source order, as a
list of events. -/

/-- One side-effecting step of a notebook cell. -/
inductive Event where
  | importModules
  | disableLogging
  | filterWarnings
  | seedTorch
  | seedCuda
  | seedNumpy
  | seedPython
  | downloadData
  | pickleDump
  | hparamsCall
  | evalFlagSet
  | getModel
  | loadStateDict
  | evalMode
  | dataAccess
  | forwardPass
  | invBoxcoxApply
  | maskAssignStep
  | plotCall
  | caseSlice
  | boxcoxAssign
  | checkpointAssign
  | trainerMake
  | trainerTest
deriving DecidableEq, Repr

/-- The events of the 4-in/10-out notebook, cell by cell in source
order.  The download cell is live code in this notebook. -/
def notebookEvents_4_10 : List Event :=
  [Event.importModules,
   Event.importModules, Event.disableLogging, Event.filterWarnings,
   Event.seedTorch, Event.seedCuda, Event.seedNumpy, Event.seedPython,
   Event.downloadData,
   Event.pickleDump,
   Event.hparamsCall,
   Event.evalFlagSet,
   Event.getModel, Event.loadStateDict, Event.evalMode,
   Event.dataAccess, Event.dataAccess, Event.forwardPass, Event.maskAssignStep,
   Event.plotCall,
   Event.plotCall,
   Event.plotCall,
   Event.plotCall,
   Event.caseSlice,
   Event.plotCall, Event.plotCall, Event.plotCall,
   Event.boxcoxAssign, Event.checkpointAssign,
   Event.getModel, Event.loadStateDict, Event.evalMode,
   Event.dataAccess, Event.dataAccess, Event.forwardPass,
   Event.invBoxcoxApply, Event.maskAssignStep,
   Event.plotCall, Event.plotCall,
   Event.trainerMake, Event.trainerTest]

/-- The events of the 2-in/1-out notebook, cell by cell in source
order.  In this notebook the download cell is a markdown cell, so no
download event occurs. -/
def notebookEvents_2_1 : List Event :=
  [Event.importModules,
   Event.importModules,
   Event.importModules, Event.disableLogging, Event.filterWarnings,
   Event.seedTorch, Event.seedCuda, Event.seedNumpy, Event.seedPython,
   Event.pickleDump,
   Event.hparamsCall,
   Event.evalFlagSet,
   Event.getModel, Event.loadStateDict, Event.evalMode,
   Event.dataAccess, Event.dataAccess, Event.forwardPass, Event.maskAssignStep,
   Event.plotCall,
   Event.plotCall,
   Event.plotCall,
   Event.plotCall,
   Event.caseSlice,
   Event.plotCall, Event.plotCall, Event.plotCall,
   Event.boxcoxAssign, Event.checkpointAssign,
   Event.getModel, Event.loadStateDict, Event.evalMode,
   Event.dataAccess, Event.dataAccess, Event.forwardPass,
   Event.invBoxcoxApply, Event.maskAssignStep,
   Event.plotCall, Event.plotCall,
   Event.trainerMake, Event.trainerTest]

/-- Scans an event trace keeping track of whether the current model
object has had the checkpoint state_dict loaded (`ld`) and has been put
in eval mode (`ev`); `getModel` creates a fresh model and resets both
flags.  Returns true iff every event that runs a forward pass (a manual
`model(x)` call or `trainer.test`) happens with both flags set. -/
def checkLoadedBeforeForward : List Event → Bool → Bool → Bool
  | [], _, _ => true
  | Event.getModel :: rest, _, _ => checkLoadedBeforeForward rest false false
  | Event.loadStateDict :: rest, _, ev => checkLoadedBeforeForward rest true ev
  | Event.evalMode :: rest, ld, _ => checkLoadedBeforeForward rest ld true
  | Event.forwardPass :: rest, ld, ev =>
      ld && ev && checkLoadedBeforeForward rest ld ev
  | Event.trainerTest :: rest, ld, ev =>
      ld && ev && checkLoadedBeforeForward rest ld ev
  | _ :: rest, ld, ev => checkLoadedBeforeForward rest ld ev

/-- C6: in every execution of either notebook, the checkpoint
state_dict is loaded into the model and the model is put in eval mode
strictly before any forward pass on that model (including the bulk
`trainer.test` run); no forward pass happens on a model whose
checkpoint has not been loaded. -/
theorem loaded_before_forward :
    checkLoadedBeforeForward notebookEvents_4_10 false false = true ∧
    checkLoadedBeforeForward notebookEvents_2_1 false false = true := by
  constructor <;> rfl

/-! ### Seeding and reproducibility -/

/-- The fixed seed constant of the seeding cell of both notebooks. -/
def SEED : ℕ := 2334

/-- The global random-number-generator states the seeding cell touches. -/
structure RngState where
  torch : ℕ
  cuda : ℕ
  numpy : ℕ
  pyrandom : ℕ
deriving DecidableEq, Repr

/-- The seeding cell of both notebooks: `torch.manual_seed(SEED)`,
`torch.cuda.manual_seed_all(SEED)` when CUDA is available,
`np.random.seed(SEED)`, `random.seed(SEED)`. -/
def seedingCell (cudaAvailable : Bool) (r : RngState) : RngState :=
  let r1 := { r with torch := SEED }
  let r2 := if cudaAvailable then { r1 with cuda := SEED } else r1
  let r3 := { r2 with numpy := SEED }
  { r3 with pyrandom := SEED }

/-- The part of the generator state an inference run can read: the
torch, numpy and python states always, the CUDA state only when CUDA is
available (otherwise the model runs on CPU and never reads it). -/
def visibleRng (cudaAvailable : Bool) (r : RngState) : ℕ × ℕ × ℕ × Option ℕ :=
  (r.torch, r.numpy, r.pyrandom, if cudaAvailable then some r.cuda else none)

/-- True iff an event constructs the model or runs inference. -/
def usesModel : Event → Bool
  | Event.getModel => true
  | Event.forwardPass => true
  | Event.trainerTest => true
  | _ => false

/-- True iff all four seeding events occur before the first event that
constructs the model or runs inference. -/
def seededBeforeModelUse (l : List Event) : Bool :=
  let pre := l.takeWhile (fun e => !usesModel e)
  pre.contains Event.seedTorch && pre.contains Event.seedCuda &&
  pre.contains Event.seedNumpy && pre.contains Event.seedPython

/-- C8: both notebooks seed torch, CUDA (when available), numpy and
python random with the fixed constant 2334 before any model
construction or inference, so any inference output that is a function
of the readable generator states is identical across two executions,
whatever generator states the two executions started from. -/
theorem seeding_reproducibility :
    SEED = 2334 ∧
    (seededBeforeModelUse notebookEvents_4_10 = true ∧
     seededBeforeModelUse notebookEvents_2_1 = true) ∧
    (∀ (cudaAvailable : Bool) (r : RngState),
      visibleRng cudaAvailable (seedingCell cudaAvailable r)
        = (SEED, SEED, SEED, if cudaAvailable then some SEED else none)) ∧
    (∀ (Out : Type) (infer : ℕ × ℕ × ℕ × Option ℕ → Out)
       (cudaAvailable : Bool) (r1 r2 : RngState),
      infer (visibleRng cudaAvailable (seedingCell cudaAvailable r1))
        = infer (visibleRng cudaAvailable (seedingCell cudaAvailable r2))) := by
  refine ⟨rfl, ⟨rfl, rfl⟩, ?_, ?_⟩
  · intro cudaAvailable r
    cases cudaAvailable <;> rfl
  · intro Out infer cudaAvailable r1 r2
    cases cudaAvailable <;> rfl

/-! ### The get_hparams calls -/

/-- The keyword-argument names of the `get_hparams` call of the
4-in/10-out notebook, in source order. -/
def getHparamsKeys_4_10 : List String :=
  ["init_features", "in_days", "out_days", "loss", "batch_size", "gpus",
   "case_study", "clip_fwi", "test_set", "model", "out",
   "forcings_dir", "reanalysis_dir", "mask", "checkpoint_file"]

/-- The keyword-argument names of the `get_hparams` call of the
2-in/1-out notebook, in source order. -/
def getHparamsKeys_2_1 : List String :=
  ["init_features", "in_days", "out_days", "loss", "batch_size", "gpus",
   "case_study", "clip_fwi", "test_set", "model", "out",
   "forcings_dir", "reanalysis_dir", "mask", "checkpoint_file"]

/-- Modelled from the spec: the named options the spec lists for the
hyperparameter builder — feature width (`init_features`), input and
output day counts (`in_days`, `out_days`), loss name (`loss`), batch
size (`batch_size`), GPU count (`gpus`), case-study flag
(`case_study`), mask path (`mask`), checkpoint path
(`checkpoint_file`) and Box-Cox lambda (`boxcox`). -/
def specListedKeys : List String :=
  ["init_features", "in_days", "out_days", "loss", "batch_size", "gpus",
   "case_study", "mask", "checkpoint_file", "boxcox"]

/-- The extra keyword arguments the notebooks pass beyond the options
the spec lists. -/
def extraHparamsKeys : List String :=
  ["clip_fwi", "test_set", "model", "out", "forcings_dir", "reanalysis_dir"]

/-- Counterexample to C2: the calls do not pass exactly the
spec-listed options — `boxcox` is spec-listed but never passed, and
`clip_fwi` is passed but not spec-listed. -/
theorem getHparams_keys_counterexample :
    ("boxcox" ∈ specListedKeys ∧ "boxcox" ∉ getHparamsKeys_4_10 ∧
     "boxcox" ∉ getHparamsKeys_2_1) ∧
    ("clip_fwi" ∈ getHparamsKeys_4_10 ∧ "clip_fwi" ∉ specListedKeys) := by
  decide

/-- C2 amended: both notebooks pass the same fixed set of fifteen
keyword arguments to `get_hparams`: every spec-listed option except the
Box-Cox lambda, plus `clip_fwi`, `test_set`, `model`, `out`,
`forcings_dir` and `reanalysis_dir`; the Box-Cox lambda is not an
argument of either call but is assigned to the namespace afterwards
(`hparams.boxcox = 0.1182`), strictly after the `get_hparams` call in
both event traces. -/
theorem getHparams_keys_amended :
    getHparamsKeys_4_10 = getHparamsKeys_2_1 ∧
    ((specListedKeys.erase "boxcox").all
        (fun k => getHparamsKeys_4_10.contains k) = true) ∧
    (getHparamsKeys_4_10.all
        (fun k => specListedKeys.contains k || extraHparamsKeys.contains k)
      = true) ∧
    getHparamsKeys_4_10.contains "boxcox" = false ∧
    (notebookEvents_4_10.indexOf Event.hparamsCall
       < notebookEvents_4_10.indexOf Event.boxcoxAssign ∧
     notebookEvents_2_1.indexOf Event.hparamsCall
       < notebookEvents_2_1.indexOf Event.boxcoxAssign) := by
  decide

/-! ### Test-set file paths -/

/-- Zero-padded two-digit decimal rendering, the semantics of the
Python format specifier `{x:02}` for arguments below 100. -/
def pad2 (n : ℕ) : String :=
  if n < 10 then "0" ++ toString n else toString n

/-- The `test_out_files` list comprehension of the 4-in/10-out
notebook: `range(1, 14)` mapped through the f-string
`/nvme0/fwi-reanalysis/ECMWF_FWI_201904{x:02}_1200_hr_fwi_e5.nc`. -/
def test_out_files_4_10 : List String :=
  (List.range' 1 13).map
    (fun x => "/nvme0/fwi-reanalysis/ECMWF_FWI_201904" ++ pad2 x
      ++ "_1200_hr_fwi_e5.nc")

/-- The `test_out_files` list comprehension of the 2-in/1-out
notebook: `range(1, 3)` mapped through the f-string
`./deepfwi-mini-sample/fwi-reanalysis/ECMWF_FWI_201912{x:02}_1200_hr_fwi_e5.nc`. -/
def test_out_files_2_1 : List String :=
  (List.range' 1 2).map
    (fun x => "./deepfwi-mini-sample/fwi-reanalysis/ECMWF_FWI_201912"
      ++ pad2 x ++ "_1200_hr_fwi_e5.nc")

/-- A calendar date. -/
structure Date where
  year : ℕ
  month : ℕ
  day : ℕ
deriving DecidableEq, Repr

/-- Gregorian leap-year test. -/
def isLeap (y : ℕ) : Bool :=
  (y % 4 == 0 && y % 100 != 0) || (y % 400 == 0)

/-- Number of days of a month in the Gregorian calendar. -/
def daysInMonth (y m : ℕ) : ℕ :=
  if m = 2 then (if isLeap y then 29 else 28)
  else if m = 4 ∨ m = 6 ∨ m = 9 ∨ m = 11 then 30
  else 31

/-- The calendar day after a given date. -/
def nextDay (d : Date) : Date :=
  if d.day < daysInMonth d.year d.month then ⟨d.year, d.month, d.day + 1⟩
  else if d.month < 12 then ⟨d.year, d.month + 1, 1⟩
  else ⟨d.year + 1, 1, 1⟩

/-- True iff the list walks through consecutive calendar days in
increasing order. -/
def consecutiveDates : List Date → Bool
  | [] => true
  | [_] => true
  | a :: b :: rest => (nextDay a == b) && consecutiveDates (b :: rest)

/-- The `YYYYMMDD` date code of a date (four-digit year). -/
def dateCode (d : Date) : String :=
  toString d.year ++ pad2 d.month ++ pad2 d.day

/-- The netCDF4 file name pattern of the test-set lists:
`<dir>ECMWF_FWI_<YYYYMMDD>_1200_hr_fwi_e5.nc`. -/
def fwiFileName (dir : String) (d : Date) : String :=
  dir ++ "ECMWF_FWI_" ++ dateCode d ++ "_1200_hr_fwi_e5.nc"

/-- Suffix test on strings, via their character lists. -/
def strEndsWith (s suff : String) : Bool :=
  suff.data.isSuffixOf s.data

/-- The thirteen dates 2019-04-01 through 2019-04-13. -/
def dates_4_10 : List Date := (List.range' 1 13).map (fun d => ⟨2019, 4, d⟩)

/-- The two dates 2019-12-01 and 2019-12-02. -/
def dates_2_1 : List Date := [⟨2019, 12, 1⟩, ⟨2019, 12, 2⟩]

/-- C5: every constructed test-set path names a `.nc` file of the form
`ECMWF_FWI_<YYYYMMDD>_1200_hr_fwi_e5.nc`, and the date lists enumerate
consecutive calendar days in increasing order — the thirteen days
2019-04-01 through 2019-04-13 in the 4-in/10-out notebook and the two
days 2019-12-01 and 2019-12-02 in the 2-in/1-out notebook. -/
theorem test_out_files_form :
    test_out_files_4_10 = dates_4_10.map (fwiFileName "/nvme0/fwi-reanalysis/") ∧
    test_out_files_2_1
      = dates_2_1.map (fwiFileName "./deepfwi-mini-sample/fwi-reanalysis/") ∧
    consecutiveDates dates_4_10 = true ∧
    consecutiveDates dates_2_1 = true ∧
    dates_4_10.length = 13 ∧
    dates_4_10.head? = some ⟨2019, 4, 1⟩ ∧
    dates_4_10.getLast? = some ⟨2019, 4, 13⟩ ∧
    dates_2_1 = [⟨2019, 12, 1⟩, ⟨2019, 12, 2⟩] ∧
    test_out_files_4_10.all (fun s => strEndsWith s ".nc") = true ∧
    test_out_files_2_1.all (fun s => strEndsWith s ".nc") = true := by
  decide

/-! ### Case-study slicing -/

/-- A two-dimensional slice view of a grid, together with its extents:
the semantics of the Python slicing `g[r0:r1, c0:c1]`. -/
structure Sliced (α : Type) where
  rows : ℕ
  cols : ℕ
  cell : ℕ → ℕ → α

/-- Python two-dimensional slicing `g[r0:r1, c0:c1]`: cell `(i, j)` of
the view reads `g (r0 + i) (c0 + j)`, and the view has `r1 - r0` rows
and `c1 - c0` columns. -/
def slice2d {α : Type} (g : ℕ → ℕ → α) (r0 r1 c0 c1 : ℕ) : Sliced α :=
  { rows := r1 - r0, cols := c1 - c0, cell := fun i j => g (r0 + i) (c0 + j) }

/-- `y_case = y[0][:, 355:480, 400:550]` of the 4-in/10-out notebook,
one day channel `c` at a time. -/
def y_case_4_10 (y : ℕ → ℕ → ℕ → FVal) (c : ℕ) : Sliced FVal :=
  slice2d (y c) 355 480 400 550

/-- `y_hat_case = y_hat[0][:, 355:480, 400:550]` of the 4-in/10-out
notebook, one day channel `c` at a time. -/
def y_hat_case_4_10 (y_hat : ℕ → ℕ → ℕ → FVal) (c : ℕ) : Sliced FVal :=
  slice2d (y_hat c) 355 480 400 550

/-- `mask_case = model.data.mask[355:480, 400:550]` of the 4-in/10-out
notebook. -/
def mask_case_4_10 (m : ℕ → ℕ → Bool) : Sliced Bool :=
  slice2d m 355 480 400 550

/-- `y_case = y[0][0][355:480, 400:550]` of the 2-in/1-out notebook. -/
def y_case_2_1 (y : ℕ → ℕ → FVal) : Sliced FVal :=
  slice2d y 355 480 400 550

/-- `y_hat_case = y_hat[0][0][355:480, 400:550]` of the 2-in/1-out
notebook. -/
def y_hat_case_2_1 (y_hat : ℕ → ℕ → FVal) : Sliced FVal :=
  slice2d y_hat 355 480 400 550

/-- `mask_case = model.data.mask[355:480, 400:550]` of the 2-in/1-out
notebook. -/
def mask_case_2_1 (m : ℕ → ℕ → Bool) : Sliced Bool :=
  slice2d m 355 480 400 550

/-- C9: in both notebooks the case-study extraction applies the
identical spatial slice — 125 rows starting at row 355 (rows 355–479)
and 150 columns starting at column 400 (columns 400–549) — to the
ground truth, the prediction and the mask, so cell `(i, j)` of each
case-study view reads position `(355 + i, 400 + j)` of its source
tensor. -/
theorem case_study_alignment (y3 yh3 : ℕ → ℕ → ℕ → FVal)
    (y2 yh2 : ℕ → ℕ → FVal) (m : ℕ → ℕ → Bool) (c i j : ℕ) :
    ((y_case_4_10 y3 c).rows = 125 ∧ (y_case_4_10 y3 c).cols = 150 ∧
     (y_hat_case_4_10 yh3 c).rows = 125 ∧ (y_hat_case_4_10 yh3 c).cols = 150 ∧
     (mask_case_4_10 m).rows = 125 ∧ (mask_case_4_10 m).cols = 150 ∧
     355 + 125 = 479 + 1 ∧ 400 + 150 = 549 + 1) ∧
    ((y_case_4_10 y3 c).cell i j = y3 c (355 + i) (400 + j) ∧
     (y_hat_case_4_10 yh3 c).cell i j = yh3 c (355 + i) (400 + j) ∧
     (mask_case_4_10 m).cell i j = m (355 + i) (400 + j)) ∧
    ((y_case_2_1 y2).cell i j = y2 (355 + i) (400 + j) ∧
     (y_hat_case_2_1 yh2).cell i j = yh2 (355 + i) (400 + j) ∧
     (mask_case_2_1 m).cell i j = m (355 + i) (400 + j)) := by
  refine ⟨⟨rfl, rfl, rfl, rfl, rfl, rfl, rfl, rfl⟩, ⟨rfl, rfl, rfl⟩, rfl, rfl, rfl⟩

/-! ### The displayed accuracy figure -/

/-- `.float()` on one boolean tensor cell. -/
def boolToFloat (b : Bool) : ℚ := if b then 1 else 0

/-- `.mean()` of a flat float tensor. -/
def floatMean (l : List ℚ) : ℚ := l.sum / (l.length : ℚ)

/-- Boolean mask indexing `t[mask]` on flat tensors: keeps, in order,
the entries of `t` at the positions where the mask is true. -/
def maskedSelect {α : Type} (t : List α) (m : List Bool) : List α :=
  ((t.zip m).filter (fun p => p.2)).map (fun p => p.1)

/-- The boolean tensor `(y - y_hat).abs() < 9.4` on flat day-`i`
slices. -/
def absErrLtThreshold (yi yhati : List FVal) : List Bool :=
  yi.zipWith (fun a b => ((a.sub b).fabs).flt (FVal.num (47 / 5))) yhati

/-- The accuracy figure of the prediction-plot f-string:
`((y - y_hat).squeeze()[i].abs() < 9.4)[model.data.mask].float().mean() * 100`,
for the flat day-`i` slices `yi`, `yhati` and the flat mask. -/
def displayedAccuracy (yi yhati : List FVal) (mask : List Bool) : ℚ :=
  floatMean ((maskedSelect (absErrLtThreshold yi yhati) mask).map boolToFloat)
    * 100

/-- Modelled from the spec: 100 times the mean, taken only over the
grid cells selected by the mask, of the indicator that the absolute
difference between ground truth and prediction is strictly below 9.4 —
i.e. 100 times the fraction of selected cells satisfying the
indicator. -/
def specAccuracy (yi yhati : List FVal) (mask : List Bool) : ℚ :=
  let selected := ((yi.zip yhati).zip mask).filter (fun c => c.2)
  100 * ((selected.countP
      (fun c => (c.1.1.sub c.1.2).fabs.flt (FVal.num (47 / 5)))) : ℚ)
    / (selected.length : ℚ)

/-- The mask-selected threshold booleans are the thresholded zipped
triples selected by the mask. -/
theorem maskedSelect_absErr :
    ∀ (yi yhati : List FVal) (mask : List Bool),
      maskedSelect (absErrLtThreshold yi yhati) mask
        = (((yi.zip yhati).zip mask).filter (fun c => c.2)).map
            (fun c => (c.1.1.sub c.1.2).fabs.flt (FVal.num (47 / 5)))
  | [], _, _ => by simp [maskedSelect, absErrLtThreshold]
  | _ :: _, [], _ => by simp [maskedSelect, absErrLtThreshold]
  | _ :: _, _ :: _, [] => by simp [maskedSelect, absErrLtThreshold]
  | a :: yi, b :: yhati, mb :: mask => by
      have ih := maskedSelect_absErr yi yhati mask
      by_cases hb : mb <;>
        simp only [maskedSelect, absErrLtThreshold, List.zipWith_cons_cons,
          List.zip_cons_cons, List.filter_cons, List.map_cons, hb] at ih ⊢ <;>
        simpa using ih

/-- Summing the float casts of booleans counts the true ones. -/
theorem sum_map_boolToFloat {γ : Type} (g : γ → Bool) :
    ∀ (l : List γ),
      ((l.map g).map boolToFloat).sum = ((l.countP g : ℕ) : ℚ)
  | [] => by simp
  | x :: l => by
      have ih := sum_map_boolToFloat g l
      simp only [List.map_map] at ih ⊢
      by_cases hg : g x <;>
        simp [boolToFloat, List.countP_cons, hg, ih, add_comm]

/-- C4: for every forecast day, the accuracy figure displayed by the
prediction-plot f-string equals 100 times the mean, taken only over the
grid cells selected by the data accessor mask, of the indicator that
the absolute difference between ground truth and prediction on that day
is strictly below the threshold 9.4.  `yi` and `yhati` are the flat
day-`i` slices of the ground truth and the prediction. -/
theorem displayed_accuracy_eq (yi yhati : List FVal) (mask : List Bool) :
    displayedAccuracy yi yhati mask = specAccuracy yi yhati mask := by
  unfold displayedAccuracy specAccuracy floatMean
  rw [maskedSelect_absErr, sum_map_boolToFloat]
  simp only [List.length_map]
  rw [div_mul_eq_mul_div, mul_comm]

/-! ### Absence of exception handling -/

/-- A notebook statement: a call into an external library (which may
raise an exception named by the oracle), a pure assignment, one of the
two error-related configuration statements, or a try/except block (the
only Python construct that could catch an exception — it never occurs
in the notebooks). -/
inductive Stmt where
  | libCall (name : String)
  | assign (target : String)
  | disableLogging
  | filterWarnings
  | tryBlock (body handler : List Stmt)

/-- Sequential execution of notebook statements.  The oracle says which
external calls raise and with what exception; a raised exception aborts
the rest of the program unless a `tryBlock` catches it. -/
def runStmts (oracle : String → Option String) : List Stmt → Except String Unit
  | [] => Except.ok ()
  | Stmt.libCall n :: rest =>
      match oracle n with
      | some e => Except.error e
      | none => runStmts oracle rest
  | Stmt.assign _ :: rest => runStmts oracle rest
  | Stmt.disableLogging :: rest => runStmts oracle rest
  | Stmt.filterWarnings :: rest => runStmts oracle rest
  | Stmt.tryBlock body handler :: rest =>
      match runStmts oracle body with
      | Except.ok () => runStmts oracle rest
      | Except.error _ =>
          match runStmts oracle handler with
          | Except.ok () => runStmts oracle rest
          | Except.error e => Except.error e

/-- The names of all external calls of a statement list. -/
def callNames : List Stmt → List String
  | [] => []
  | Stmt.libCall n :: rest => n :: callNames rest
  | Stmt.tryBlock body handler :: rest =>
      callNames body ++ callNames handler ++ callNames rest
  | _ :: rest => callNames rest

/-- True iff a statement is not a try/except block. -/
def stmtNoHandler : Stmt → Bool
  | Stmt.tryBlock _ _ => false
  | _ => true

/-- True iff a statement list contains no try/except block. -/
def noHandler (l : List Stmt) : Bool := l.all stmtNoHandler

/-- True iff a statement is the logging-disabling configuration. -/
def isDisableLogging : Stmt → Bool
  | Stmt.disableLogging => true
  | _ => false

/-- True iff a statement is the warnings-suppressing configuration. -/
def isFilterWarnings : Stmt → Bool
  | Stmt.filterWarnings => true
  | _ => false

/-- In a handler-free program, every error the program returns is the
unchanged exception of one of its external calls. -/
theorem runStmts_error_from_call (oracle : String → Option String) :
    ∀ (l : List Stmt), noHandler l = true → ∀ (e : String),
      runStmts oracle l = Except.error e →
        ∃ n, n ∈ callNames l ∧ oracle n = some e
  | [], _, e, h => by simp [runStmts] at h
  | Stmt.libCall n :: rest, hnh, e, h => by
      have htail : noHandler rest = true := by
        simpa [noHandler, stmtNoHandler] using hnh
      rcases hc : oracle n with _ | e0
      · have h2 : runStmts oracle rest = Except.error e := by
          simpa [runStmts, hc] using h
        rcases runStmts_error_from_call oracle rest htail e h2 with ⟨m, hm, ho⟩
        exact ⟨m, by simp [callNames, hm], ho⟩
      · have he : e0 = e := by simpa [runStmts, hc] using h
        exact ⟨n, by simp [callNames], by simpa [he] using hc⟩
  | Stmt.assign t :: rest, hnh, e, h => by
      have htail : noHandler rest = true := by
        simpa [noHandler, stmtNoHandler] using hnh
      have h2 : runStmts oracle rest = Except.error e := by
        simpa [runStmts] using h
      rcases runStmts_error_from_call oracle rest htail e h2 with ⟨m, hm, ho⟩
      exact ⟨m, by simp [callNames, hm], ho⟩
  | Stmt.disableLogging :: rest, hnh, e, h => by
      have htail : noHandler rest = true := by
        simpa [noHandler, stmtNoHandler] using hnh
      have h2 : runStmts oracle rest = Except.error e := by
        simpa [runStmts] using h
      rcases runStmts_error_from_call oracle rest htail e h2 with ⟨m, hm, ho⟩
      exact ⟨m, by simp [callNames, hm], ho⟩
  | Stmt.filterWarnings :: rest, hnh, e, h => by
      have htail : noHandler rest = true := by
        simpa [noHandler, stmtNoHandler] using hnh
      have h2 : runStmts oracle rest = Except.error e := by
        simpa [runStmts] using h
      rcases runStmts_error_from_call oracle rest htail e h2 with ⟨m, hm, ho⟩
      exact ⟨m, by simp [callNames, hm], ho⟩
  | Stmt.tryBlock body handler :: rest, hnh, e, h => by
      exact absurd hnh (by simp [noHandler, stmtNoHandler])

/-- Statements of the 4-in/10-out notebook, cell by cell in source
order. -/
def notebookStmts_4_10 : List Stmt :=
  [Stmt.libCall "os.chdir", Stmt.libCall "import train",
   Stmt.libCall "import modules", Stmt.disableLogging, Stmt.filterWarnings,
   Stmt.libCall "torch.manual_seed", Stmt.libCall "torch.cuda.is_available",
   Stmt.libCall "torch.cuda.manual_seed_all",
   Stmt.libCall "np.random.seed", Stmt.libCall "random.seed",
   Stmt.libCall "os.chdir", Stmt.libCall "gsutil cp", Stmt.libCall "os.chdir",
   Stmt.assign "test_out_files", Stmt.libCall "print",
   Stmt.libCall "tempfile.NamedTemporaryFile", Stmt.libCall "pickle.dump",
   Stmt.assign "test_set_path",
   Stmt.libCall "get_hparams", Stmt.assign "hparams",
   Stmt.assign "hparams.eval",
   Stmt.libCall "get_model", Stmt.libCall "torch.load",
   Stmt.libCall "model.load_state_dict", Stmt.libCall "model.eval",
   Stmt.libCall "model.data", Stmt.assign "x",
   Stmt.libCall "model.data", Stmt.assign "y",
   Stmt.libCall "model.forward", Stmt.assign "y_hat",
   Stmt.assign "y_hat[isnan(y)]",
   Stmt.libCall "plt.figure", Stmt.libCall "plt.imshow",
   Stmt.libCall "plt.show",
   Stmt.assign "plot",
   Stmt.libCall "plot", Stmt.libCall "plt.show",
   Stmt.libCall "plot", Stmt.libCall "plt.show",
   Stmt.libCall "plot",
   Stmt.libCall "tensor.slice", Stmt.assign "y_case",
   Stmt.libCall "tensor.slice", Stmt.assign "y_hat_case",
   Stmt.libCall "tensor.slice", Stmt.assign "mask_case",
   Stmt.libCall "plot", Stmt.libCall "plt.show",
   Stmt.libCall "plot", Stmt.libCall "plt.show",
   Stmt.libCall "plot",
   Stmt.assign "hparams.boxcox", Stmt.assign "hparams.checkpoint_file",
   Stmt.libCall "get_model", Stmt.libCall "torch.load",
   Stmt.libCall "model.load_state_dict", Stmt.libCall "model.eval",
   Stmt.libCall "model.data", Stmt.assign "x",
   Stmt.libCall "model.data", Stmt.assign "y",
   Stmt.libCall "model.forward", Stmt.libCall "inv_boxcox",
   Stmt.libCall "torch.from_numpy", Stmt.assign "y_hat",
   Stmt.assign "y_hat[isnan(y)]",
   Stmt.libCall "plot", Stmt.libCall "plt.show",
   Stmt.libCall "plot",
   Stmt.libCall "pl.Trainer", Stmt.assign "trainer",
   Stmt.libCall "trainer.test"]

/-- Statements of the 2-in/1-out notebook, cell by cell in source
order; the download cell is markdown there and the case-study slices
are two-dimensional, otherwise the structure is the same. -/
def notebookStmts_2_1 : List Stmt :=
  [Stmt.libCall "load_ext autoreload",
   Stmt.libCall "os.chdir", Stmt.libCall "import train",
   Stmt.libCall "import modules", Stmt.disableLogging, Stmt.filterWarnings,
   Stmt.libCall "torch.manual_seed", Stmt.libCall "torch.cuda.is_available",
   Stmt.libCall "torch.cuda.manual_seed_all",
   Stmt.libCall "np.random.seed", Stmt.libCall "random.seed",
   Stmt.assign "test_out_files", Stmt.libCall "print",
   Stmt.libCall "tempfile.NamedTemporaryFile", Stmt.libCall "pickle.dump",
   Stmt.assign "test_set_path",
   Stmt.libCall "get_hparams", Stmt.assign "hparams",
   Stmt.assign "hparams.eval",
   Stmt.libCall "get_model", Stmt.libCall "torch.load",
   Stmt.libCall "model.load_state_dict", Stmt.libCall "model.eval",
   Stmt.libCall "model.data", Stmt.assign "x",
   Stmt.libCall "model.data", Stmt.assign "y",
   Stmt.libCall "model.forward", Stmt.assign "y_hat",
   Stmt.assign "y_hat[isnan(y)]",
   Stmt.libCall "plt.figure", Stmt.libCall "plt.imshow",
   Stmt.libCall "plt.show",
   Stmt.assign "plot",
   Stmt.libCall "plot",
   Stmt.libCall "plot",
   Stmt.libCall "plot",
   Stmt.libCall "tensor.slice", Stmt.assign "y_case",
   Stmt.libCall "tensor.slice", Stmt.assign "y_hat_case",
   Stmt.libCall "tensor.slice", Stmt.assign "mask_case",
   Stmt.libCall "plot",
   Stmt.libCall "plot",
   Stmt.libCall "plot",
   Stmt.assign "hparams.boxcox", Stmt.assign "hparams.checkpoint_file",
   Stmt.libCall "get_model", Stmt.libCall "torch.load",
   Stmt.libCall "model.load_state_dict", Stmt.libCall "model.eval",
   Stmt.libCall "model.data", Stmt.assign "x",
   Stmt.libCall "model.data", Stmt.assign "y",
   Stmt.libCall "model.forward", Stmt.libCall "inv_boxcox",
   Stmt.libCall "torch.from_numpy", Stmt.assign "y_hat",
   Stmt.assign "y_hat[isnan(y)]",
   Stmt.libCall "plot",
   Stmt.libCall "plot",
   Stmt.libCall "pl.Trainer", Stmt.assign "trainer",
   Stmt.libCall "trainer.test"]

/-- C7: neither notebook contains a try/except block, so any exception
an external call raises propagates unchanged to the caller; the only
error-related configuration statements are the disabling of logging and
the suppression of warnings, and both are present. -/
theorem no_exception_handling :
    (noHandler notebookStmts_4_10 = true ∧
     noHandler notebookStmts_2_1 = true) ∧
    (∀ (oracle : String → Option String) (e : String),
        runStmts oracle notebookStmts_4_10 = Except.error e →
        ∃ n, n ∈ callNames notebookStmts_4_10 ∧ oracle n = some e) ∧
    (∀ (oracle : String → Option String) (e : String),
        runStmts oracle notebookStmts_2_1 = Except.error e →
        ∃ n, n ∈ callNames notebookStmts_2_1 ∧ oracle n = some e) ∧
    (notebookStmts_4_10.any isDisableLogging = true ∧
     notebookStmts_4_10.any isFilterWarnings = true ∧
     notebookStmts_2_1.any isDisableLogging = true ∧
     notebookStmts_2_1.any isFilterWarnings = true) := by
  refine ⟨⟨rfl, rfl⟩, ?_, ?_, rfl, rfl, rfl, rfl⟩
  · intro oracle e h
    exact runStmts_error_from_call oracle notebookStmts_4_10 rfl e h
  · intro oracle e h
    exact runStmts_error_from_call oracle notebookStmts_2_1 rfl e h

/-- Oracle used by the C7 witness: `torch.load` raises, everything else
succeeds. -/
def wOracle : String → Option String :=
  fun n => if n = "torch.load" then some "FileNotFoundError" else none

/-- Witness for C7: running the 4-in/10-out notebook under an oracle on
which `torch.load` raises yields exactly that exception, and the
propagation theorem traces it back to an external call. -/
theorem no_exception_handling_witness :
    ∃ n, n ∈ callNames notebookStmts_4_10 ∧
      wOracle n = some "FileNotFoundError" := by
  refine no_exception_handling.2.1 wOracle "FileNotFoundError" ?_
  simp [runStmts, wOracle, notebookStmts_4_10]

end Wildfire
